import Mathlib

/-!
Shallow embedding of the three Python scripts of this repository:

* `src/python/code_gen_xreg0.py` — register-template generator, variant A
  (macro token `X_REG0`), namespace `XReg0` below;
* `src/python/code_gen_xreg1.py` — register-template generator, variant B
  (macro token `X_REG1`), namespace `XReg1` below;
* `src/python/temp.py` — interrupt-mask calculator, namespace `Temp` below.

Both generators share the same parsing shape: `re.match` against the
pattern `MACRO!\((\w+),\s*(\w+)\);` (anchored at the start of the line
only), returning the two captured groups, or raising `ValueError` when the
line does not match.  The regex is embedded as a deterministic
maximal-munch parser over `List Char`: because `\w+` is followed in the
pattern by a character that is not a word character (`,` resp. `)`), and
`\s*` is followed by `\w`, greedy matching never needs to backtrack, so
maximal munch computes exactly the regex match.
-/

/-- Python's `\w` on the ASCII range: letters, digits and underscore. -/
def wordChar (c : Char) : Bool :=
  c.isAlpha || c.isDigit || c == '_'

/-- Python's `\s` on the ASCII range: space, tab, newline, carriage return,
vertical tab and form feed. -/
def spaceChar (c : Char) : Bool :=
  c == ' ' || c == '\t' || c == '\n' || c == '\r' || c == '\x0b' || c == '\x0c'

/-- Consume an exact literal character sequence at the head of the input,
returning the rest, or `none` on a mismatch.  This embeds the literal parts
of the regex (`X_REG0!\(`, `,`, `\);`). -/
def eatLit : List Char → List Char → Option (List Char)
  | [], rest => some rest
  | _ :: _, [] => none
  | p :: ps, c :: cs => if c = p then eatLit ps cs else none

/-- The shared shape of `extract_macro_parameters` in both generators:
`re.match` of `MAC(\w+),\s*(\w+)\);` where `MAC` is the variant's literal
prefix (`X_REG0!(` resp. `X_REG1!(`).  `re.match` anchors at the start of
the string only, so anything may follow the matched `);`.  Returns the two
captured groups; `none` embeds the `ValueError` raised on a failed match. -/
def parseMacroLine (mac s : List Char) : Option (String × String) :=
  match eatLit mac s with
  | none => none
  | some r1 =>
    let name := r1.takeWhile wordChar
    if name = [] then none
    else
      match r1.dropWhile wordChar with
      | ',' :: r2 =>
        let r3 := r2.dropWhile spaceChar
        let addr := r3.takeWhile wordChar
        if addr = [] then none
        else
          match r3.dropWhile wordChar with
          | ')' :: ';' :: _ => some (String.mk name, String.mk addr)
          | _ => none
      | _ => none

/-- One template piece: literal text, or one of the two substitution points
of the generator's f-string template. -/
inductive Piece where
  | lit : String → Piece
  | nameRef : Piece
  | addrRef : Piece
deriving DecidableEq

/-- Render one piece: substitution points are replaced by the given name or
address verbatim, with no transformation. -/
def Piece.render (name addr : String) : Piece → String
  | .lit s => s
  | .nameRef => name
  | .addrRef => addr

/-- Render a whole template, replacing every occurrence of the name
placeholder by `name` verbatim and every occurrence of the address
placeholder by `addr` verbatim. -/
def renderTemplate (tpl : List Piece) (name addr : String) : String :=
  tpl.foldr (fun p acc => p.render name addr ++ acc) ""

/-- One `const NAME = VALUE;` line of a template, structurally: either a
single bit `1 << n`, or a contiguous mask `genmask!(hi, lo)`. -/
inductive BitSpec where
  | bit : Nat → BitSpec
  | mask : Nat → Nat → BitSpec
deriving DecidableEq

/-- The bit positions a `BitSpec` covers. -/
def BitSpec.bits : BitSpec → List Nat
  | .bit n => [n]
  | .mask hi lo => (List.range (hi + 1)).filter (fun i => lo ≤ i)

/-- The `__main__` loop shared by both generators: read lines in order; for
each line run `extract_macro_parameters` and print the generated block.  A
line that fails to parse raises `ValueError`, aborting the run: nothing is
printed for that line or any later one.  Result: the blocks printed, in
order, and whether the run completed without error. -/
def runWith (ext : String → Option (String × String)) (gen : String → String → String) :
    List String → List String × Bool
  | [] => ([], true)
  | l :: ls =>
    match ext l with
    | none => ([], false)
    | some (n, a) =>
      let r := runWith ext gen ls
      (gen n a :: r.1, r.2)

/-- The bytes a run writes to stdout: each block is printed by `print`,
which appends one newline. -/
def runOutput (ext : String → Option (String × String)) (gen : String → String → String)
    (lines : List String) : String × Bool :=
  let r := runWith ext gen lines
  (String.join (r.1.map (fun b => b ++ "\n")), r.2)

namespace Temp

/-! Embedding of `src/python/temp.py`.  All constants are literal
single-bit values; the aggregate masks are their bitwise ORs, exactly as in
`output_int_mask` and `dmac_int_ena`. -/

def FSDIF_INT_RE_BIT : Nat := 1 <<< 1
def FSDIF_INT_CMD_BIT : Nat := 1 <<< 2
def FSDIF_INT_RCRC_BIT : Nat := 1 <<< 6
def FSDIF_INT_RTO_BIT : Nat := 1 <<< 8
def FSDIF_INT_HTO_BIT : Nat := 1 <<< 10
def FSDIF_INT_HLE_BIT : Nat := 1 <<< 12

def FSDIF_INT_DTO_BIT : Nat := 1 <<< 3
def FSDIF_INT_DCRC_BIT : Nat := 1 <<< 7
def FSDIF_INT_DRTO_BIT : Nat := 1 <<< 9
def FSDIF_INT_SBE_BCI_BIT : Nat := 1 <<< 13

def FSDIF_INTS_CMD_MASK : Nat :=
  FSDIF_INT_RE_BIT ||| FSDIF_INT_CMD_BIT ||| FSDIF_INT_RCRC_BIT |||
  FSDIF_INT_RTO_BIT ||| FSDIF_INT_HTO_BIT ||| FSDIF_INT_HLE_BIT

def FSDIF_INTS_DATA_MASK : Nat :=
  FSDIF_INT_DTO_BIT ||| FSDIF_INT_DCRC_BIT ||| FSDIF_INT_DRTO_BIT |||
  FSDIF_INT_SBE_BCI_BIT

def FSDIF_DMAC_INT_ENA_FBE : Nat := 1 <<< 2
def FSDIF_DMAC_INT_ENA_DU : Nat := 1 <<< 4
def FSDIF_DMAC_INT_ENA_NIS : Nat := 1 <<< 8
def FSDIF_DMAC_INT_ENA_AIS : Nat := 1 <<< 9

def FSDIF_DMAC_INTS_MASK : Nat :=
  FSDIF_DMAC_INT_ENA_FBE ||| FSDIF_DMAC_INT_ENA_DU |||
  FSDIF_DMAC_INT_ENA_NIS ||| FSDIF_DMAC_INT_ENA_AIS

/-- Python's `f"...: \x7bv:#x\x7d"` number formatting: `0x` prefix,
lowercase hexadecimal digits, no padding.  `Nat.toDigits 16` produces the
lowercase digits most-significant first. -/
def pyHex (n : Nat) : String :=
  "0x" ++ String.mk (Nat.toDigits 16 n)

/-- The two lines `output_int_mask` prints. -/
def output_int_mask : List String :=
  [ "FSDIF_INTS_CMD_MASK: " ++ pyHex FSDIF_INTS_CMD_MASK,
    "FSDIF_INTS_DATA_MASK: " ++ pyHex FSDIF_INTS_DATA_MASK ]

/-- The one line `dmac_int_ena` prints. -/
def dmac_int_ena : List String :=
  [ "FSDIF_DMAC_INTS_MASK: " ++ pyHex FSDIF_DMAC_INTS_MASK ]

/-- What `temp.py` prints when run as a program: its `__main__` block calls
`dmac_int_ena()` and nothing else. -/
def mainOutput : List String :=
  dmac_int_ena

/-- A line of the form `LABEL: 0x<hex>` with a non-empty label, at least
one hex digit, all digits lowercase hexadecimal, and no zero padding (the
leading digit is `0` only for the one-digit value `0`). -/
def isMaskLine (s : String) : Prop :=
  ∃ label digits : String,
    s = label ++ ": 0x" ++ digits ∧
    label.data ≠ [] ∧
    digits.data ≠ [] ∧
    (∀ c ∈ digits.data, c.isDigit = true ∨ ('a' ≤ c ∧ c ≤ 'f')) ∧
    (digits.data.head? = some '0' → digits.data.length = 1)

end Temp

namespace XReg0

/-! Embedding of `src/python/code_gen_xreg0.py` (variant A).  The f-string
template of `generate_code` is transcribed literally, split at its two
substitution points (`reg_name`, used five times, and `reg_addr`, used
once) and at the block of `const` lines.  A brace of the generated Rust
text is written `\x7b` / `\x7d`. -/

/-- The twelve `const` lines of variant A's template, verbatim. -/
def xreg0ConstBlock : String :=
  "        const PULL_MASK = genmask!(9, 8);\n" ++
  "        const DRIVE_MASK = genmask!(7, 4);\n" ++
  "        const FUNC_MASK = genmask!(2, 0);\n" ++
  "        const FUNC_BIT0 = 1 << 0;\n" ++
  "        const FUNC_BIT1 = 1 << 1;\n" ++
  "        const FUNC_BIT2 = 1 << 2;\n" ++
  "        const DRIVE_BIT0 = 1 << 4;\n" ++
  "        const DRIVE_BIT1 = 1 << 5;\n" ++
  "        const DRIVE_BIT2 = 1 << 6;\n" ++
  "        const DRIVE_BIT3 = 1 << 7;\n" ++
  "        const PULL_BIT0 = 1 << 8;\n" ++
  "        const PULL_BIT1 = 1 << 9;\n"

def xreg0L1 : String := "bitflags! \x7b\n    struct "

def xreg0L2 : String :=
  ": u32 \x7b\n" ++ xreg0ConstBlock ++ "    \x7d\n\x7d\n\nimpl FlagReg for "

def xreg0L3 : String := " \x7b\n    const REG: u32 = "

def xreg0L4 : String := ";\n\x7d\n\nimpl From<u32> for "

def xreg0L5 : String :=
  " \x7b\n    fn from(x: u32) -> Self \x7b\n        Self::from_bits_truncate(x)\n    \x7d\n\x7d\n\nimpl Into<u32> for "

def xreg0L6 : String :=
  " \x7b\n    fn into(self) -> u32 \x7b\n        self.bits()\n    \x7d\n\x7d\n\nimpl XReg0 for "

def xreg0L7 : String := " \x7b\n\n\x7d\n"

/-- `generate_code` of variant A: the template with `reg_name` and
`reg_addr` interpolated. -/
def generate_code (reg_name reg_addr : String) : String :=
  xreg0L1 ++ reg_name ++ xreg0L2 ++ reg_name ++ xreg0L3 ++ reg_addr ++
  xreg0L4 ++ reg_name ++ xreg0L5 ++ reg_name ++ xreg0L6 ++ reg_name ++ xreg0L7

/-- Variant A's template as pieces: the same literals, with the explicit
substitution points. -/
def xreg0Tpl : List Piece :=
  [.lit xreg0L1, .nameRef, .lit xreg0L2, .nameRef, .lit xreg0L3, .addrRef,
   .lit xreg0L4, .nameRef, .lit xreg0L5, .nameRef, .lit xreg0L6, .nameRef,
   .lit xreg0L7]

/-- `extract_macro_parameters` of variant A: `re.match` of
`X_REG0!\((\w+),\s*(\w+)\);` against the line. -/
def extract_macro_parameters (input_str : String) : Option (String × String) :=
  parseMacroLine ("X_REG0!(").data input_str.data

/-- Variant A's `__main__` loop over a list of input lines. -/
def run : List String → List String × Bool :=
  runWith extract_macro_parameters generate_code

/-- Variant A's `const` lines, structurally: name and bit value. -/
def xreg0Consts : List (String × BitSpec) :=
  [ ("PULL_MASK", .mask 9 8), ("DRIVE_MASK", .mask 7 4), ("FUNC_MASK", .mask 2 0),
    ("FUNC_BIT0", .bit 0), ("FUNC_BIT1", .bit 1), ("FUNC_BIT2", .bit 2),
    ("DRIVE_BIT0", .bit 4), ("DRIVE_BIT1", .bit 5), ("DRIVE_BIT2", .bit 6),
    ("DRIVE_BIT3", .bit 7), ("PULL_BIT0", .bit 8), ("PULL_BIT1", .bit 9) ]

/-- Variant A's textual form of a bit value: `1 << n`, or
`genmask!(hi, lo)` with a space after the comma. -/
def bitText0 : BitSpec → String
  | .bit n => "1 << " ++ toString n
  | .mask hi lo => "genmask!(" ++ toString hi ++ ", " ++ toString lo ++ ")"

/-- One `const` line of variant A's template from its structural form. -/
def constLine0 (p : String × BitSpec) : String :=
  "        const " ++ p.1 ++ " = " ++ bitText0 p.2 ++ ";\n"

end XReg0

namespace XReg1

/-! Embedding of `src/python/code_gen_xreg1.py` (variant B).  Same shape as
variant A: the f-string template transcribed literally, split at its
substitution points.  Variant B's `genmask!` occurrences have no space
after the comma, exactly as in the source. -/

/-- The eighteen `const` lines of variant B's template, verbatim. -/
def xreg1ConstBlock : String :=
  "        const OUT_DELAY_EN = 1 << 8;\n" ++
  "        const OUT_DELAY_DELICATE_MASK = genmask!(11,9);\n" ++
  "        const OUT_DELAY_DELICATE_BIT0 = 1 << 9;\n" ++
  "        const OUT_DELAY_DELICATE_BIT1 = 1 << 10;\n" ++
  "        const OUT_DELAY_DELICATE_BIT2 = 1 << 11;\n" ++
  "        const OUT_DELAY_ROUGH_MASK = genmask!(14,12);\n" ++
  "        const OUT_DELAY_ROUGH_BIT0 = 1 << 12;\n" ++
  "        const OUT_DELAY_ROUGH_BIT1 = 1 << 13;\n" ++
  "        const OUT_DELAY_ROUGH_BIT2 = 1 << 14;\n" ++
  "        const IN_DELAY_EN = 1 << 0;\n" ++
  "        const IN_DELAY_DELICATE_MASK = genmask!(3,1);\n" ++
  "        const IN_DELAY_DELICATE_BIT0 = 1 << 1;\n" ++
  "        const IN_DELAY_DELICATE_BIT1 = 1 << 2;\n" ++
  "        const IN_DELAY_DELICATE_BIT2 = 1 << 3;\n" ++
  "        const IN_DELAY_ROUGH_MASK = genmask!(6,4);\n" ++
  "        const IN_DELAY_ROUGH_BIT0 = 1 << 4;\n" ++
  "        const IN_DELAY_ROUGH_BIT1 = 1 << 5;\n" ++
  "        const IN_DELAY_ROUGH_BIT2 = 1 << 6;\n"

def xreg1L1 : String := "bitflags! \x7b\n    struct "

def xreg1L2 : String :=
  ": u32 \x7b\n" ++ xreg1ConstBlock ++ "    \x7d\n\x7d\n\nimpl FlagReg for "

def xreg1L3 : String := " \x7b\n    const REG: u32 = "

def xreg1L4 : String := ";\n\x7d\n\nimpl From<u32> for "

def xreg1L5 : String :=
  " \x7b\n    fn from(x: u32) -> Self \x7b\n        Self::from_bits_truncate(x)\n    \x7d\n\x7d\n\nimpl Into<u32> for "

def xreg1L6 : String :=
  " \x7b\n    fn into(self) -> u32 \x7b\n        self.bits()\n    \x7d\n\x7d\n\nimpl XReg1 for "

def xreg1L7 : String := " \x7b\n\n\x7d\n"

/-- `generate_code` of variant B: the template with `reg_name` and
`reg_addr` interpolated. -/
def generate_code (reg_name reg_addr : String) : String :=
  xreg1L1 ++ reg_name ++ xreg1L2 ++ reg_name ++ xreg1L3 ++ reg_addr ++
  xreg1L4 ++ reg_name ++ xreg1L5 ++ reg_name ++ xreg1L6 ++ reg_name ++ xreg1L7

/-- Variant B's template as pieces: the same literals, with the explicit
substitution points. -/
def xreg1Tpl : List Piece :=
  [.lit xreg1L1, .nameRef, .lit xreg1L2, .nameRef, .lit xreg1L3, .addrRef,
   .lit xreg1L4, .nameRef, .lit xreg1L5, .nameRef, .lit xreg1L6, .nameRef,
   .lit xreg1L7]

/-- `extract_macro_parameters` of variant B: `re.match` of
`X_REG1!\((\w+),\s*(\w+)\);` against the line. -/
def extract_macro_parameters (input_str : String) : Option (String × String) :=
  parseMacroLine ("X_REG1!(").data input_str.data

/-- Variant B's `__main__` loop over a list of input lines. -/
def run : List String → List String × Bool :=
  runWith extract_macro_parameters generate_code

/-- Variant B's `const` lines, structurally: name and bit value. -/
def xreg1Consts : List (String × BitSpec) :=
  [ ("OUT_DELAY_EN", .bit 8),
    ("OUT_DELAY_DELICATE_MASK", .mask 11 9),
    ("OUT_DELAY_DELICATE_BIT0", .bit 9),
    ("OUT_DELAY_DELICATE_BIT1", .bit 10),
    ("OUT_DELAY_DELICATE_BIT2", .bit 11),
    ("OUT_DELAY_ROUGH_MASK", .mask 14 12),
    ("OUT_DELAY_ROUGH_BIT0", .bit 12),
    ("OUT_DELAY_ROUGH_BIT1", .bit 13),
    ("OUT_DELAY_ROUGH_BIT2", .bit 14),
    ("IN_DELAY_EN", .bit 0),
    ("IN_DELAY_DELICATE_MASK", .mask 3 1),
    ("IN_DELAY_DELICATE_BIT0", .bit 1),
    ("IN_DELAY_DELICATE_BIT1", .bit 2),
    ("IN_DELAY_DELICATE_BIT2", .bit 3),
    ("IN_DELAY_ROUGH_MASK", .mask 6 4),
    ("IN_DELAY_ROUGH_BIT0", .bit 4),
    ("IN_DELAY_ROUGH_BIT1", .bit 5),
    ("IN_DELAY_ROUGH_BIT2", .bit 6) ]

/-- Variant B's textual form of a bit value: `1 << n`, or
`genmask!(hi,lo)` with no space after the comma. -/
def bitText1 : BitSpec → String
  | .bit n => "1 << " ++ toString n
  | .mask hi lo => "genmask!(" ++ toString hi ++ "," ++ toString lo ++ ")"

/-- One `const` line of variant B's template from its structural form. -/
def constLine1 (p : String × BitSpec) : String :=
  "        const " ++ p.1 ++ " = " ++ bitText1 p.2 ++ ";\n"

end XReg1

/-- Bool test: does `pat` occur as a contiguous substring of `s`? -/
def hasInfix (pat : List Char) : List Char → Bool
  | [] => pat.isEmpty
  | c :: cs => pat.isPrefixOf (c :: cs) || hasInfix pat cs

/-- How many positions of `s` start an occurrence of `pat`. -/
def countOcc (pat : List Char) : List Char → Nat
  | [] => 0
  | c :: cs => (if pat.isPrefixOf (c :: cs) then 1 else 0) + countOcc pat cs

/-- How many lines of `s` are `const` declarations of the generated
bit-flag type: the template indents each of them by exactly eight spaces,
so they are the occurrences of eight spaces followed by `const `; the
`const REG` line of the `FlagReg` impl is indented by four and is not
counted. -/
def countConstLines (s : String) : Nat :=
  countOcc ("        const ").data s.data

/-! Helper lemmas about the parser. -/

theorem eatLit_self_append (p r : List Char) : eatLit p (p ++ r) = some r := by
  induction p with
  | nil => rfl
  | cons c cs ih => simp [eatLit, ih]

theorem takeWhile_append_all {p : Char → Bool} {l : List Char}
    (h : ∀ x ∈ l, p x = true) (r : List Char) :
    (l ++ r).takeWhile p = l ++ r.takeWhile p := by
  induction l with
  | nil => rfl
  | cons c cs ih =>
    simp only [List.cons_append, List.takeWhile_cons]
    rw [h c (List.mem_cons_self c cs)]
    simp [ih fun x hx => h x (List.mem_cons_of_mem c hx)]

theorem dropWhile_append_all {p : Char → Bool} {l : List Char}
    (h : ∀ x ∈ l, p x = true) (r : List Char) :
    (l ++ r).dropWhile p = r.dropWhile p := by
  induction l with
  | nil => rfl
  | cons c cs ih =>
    simp only [List.cons_append, List.dropWhile_cons]
    rw [h c (List.mem_cons_self c cs)]
    exact ih fun x hx => h x (List.mem_cons_of_mem c hx)

theorem wordChar_not_space {c : Char} (h : wordChar c = true) : spaceChar c = false := by
  cases hs : spaceChar c with
  | false => rfl
  | true =>
    exfalso
    simp only [spaceChar, Bool.or_eq_true, beq_iff_eq] at hs
    rcases hs with ((((h1 | h1) | h1) | h1) | h1) | h1 <;> subst h1 <;> simp [wordChar] at h

/-- Industrial-strength form of the regex match: on a line made of the
macro literal, a word-token name, a comma, optional whitespace, a
word-token address, `);`, and an arbitrary trailing suffix,
`parseMacroLine` succeeds and returns exactly the name and address. -/
theorem parseMacroLine_canonical (mac nameL spL addrL sufL : List Char)
    (hn : ∀ c ∈ nameL, wordChar c = true) (hn0 : nameL ≠ [])
    (ha : ∀ c ∈ addrL, wordChar c = true) (ha0 : addrL ≠ [])
    (hsp : ∀ c ∈ spL, spaceChar c = true) :
    parseMacroLine mac
        (mac ++ (nameL ++ (',' :: (spL ++ (addrL ++ (')' :: ';' :: sufL)))))) =
      some (String.mk nameL, String.mk addrL) := by
  obtain ⟨a0, addrT, rfl⟩ : ∃ a0 t, addrL = a0 :: t := by
    cases addrL with
    | nil => exact absurd rfl ha0
    | cons x xs => exact ⟨x, xs, rfl⟩
  have haw : wordChar a0 = true := ha a0 (List.mem_cons_self a0 addrT)
  have ht1 : (nameL ++ (',' :: (spL ++ (a0 :: addrT ++ (')' :: ';' :: sufL))))).takeWhile wordChar
      = nameL := by
    rw [takeWhile_append_all hn]
    simp [List.takeWhile_cons, wordChar]
  have hd1 : (nameL ++ (',' :: (spL ++ (a0 :: addrT ++ (')' :: ';' :: sufL))))).dropWhile wordChar
      = ',' :: (spL ++ (a0 :: addrT ++ (')' :: ';' :: sufL))) := by
    rw [dropWhile_append_all hn]
    simp [List.dropWhile_cons, wordChar]
  have hd2 : (spL ++ (a0 :: addrT ++ (')' :: ';' :: sufL))).dropWhile spaceChar
      = a0 :: addrT ++ (')' :: ';' :: sufL) := by
    rw [dropWhile_append_all hsp]
    simp [List.dropWhile_cons, wordChar_not_space haw]
  have ht3 : (a0 :: addrT ++ (')' :: ';' :: sufL)).takeWhile wordChar = a0 :: addrT := by
    have := takeWhile_append_all (p := wordChar) (l := a0 :: addrT) ha (')' :: ';' :: sufL)
    simpa [List.takeWhile_cons, wordChar] using this
  have hd3 : (a0 :: addrT ++ (')' :: ';' :: sufL)).dropWhile wordChar = ')' :: ';' :: sufL := by
    have := dropWhile_append_all (p := wordChar) (l := a0 :: addrT) ha (')' :: ';' :: sufL)
    simpa [List.dropWhile_cons, wordChar] using this
  simp only [parseMacroLine, eatLit_self_append, ht1, hd1, hd2, ht3, hd3, hn0,
    if_neg hn0]
  simp

/-- Soundness of the regex match: a successful parse returns two non-empty
word-character tokens. -/
theorem parseMacroLine_wordlike (mac s : List Char) (n a : String)
    (h : parseMacroLine mac s = some (n, a)) :
    n.data ≠ [] ∧ a.data ≠ [] ∧
      (∀ c ∈ n.data, wordChar c = true) ∧ (∀ c ∈ a.data, wordChar c = true) := by
  simp only [parseMacroLine] at h
  split at h
  · exact absurd h (by simp)
  · split at h
    · exact absurd h (by simp)
    · rename_i r1 hne
      split at h
      · rename_i r2 heq
        split at h
        · exact absurd h (by simp)
        · rename_i hane
          split at h
          · rename_i rest heq2
            rw [Option.some_inj] at h
            injection h with h1 h2
            subst h1; subst h2
            refine ⟨hne, hane, ?_, ?_⟩
            · exact fun c hc => List.mem_takeWhile_imp hc
            · exact fun c hc => List.mem_takeWhile_imp hc
          · exact absurd h (by simp)
      · exact absurd h (by simp)

/-- String-level canonical match, variant A: the line
`X_REG0!(NAME,<spaces>ADDR);<suffix>` parses to exactly `(NAME, ADDR)`. -/
theorem extract0_canonical (name sp addr suffix : String)
    (hn : ∀ c ∈ name.data, wordChar c = true) (hn0 : name.data ≠ [])
    (ha : ∀ c ∈ addr.data, wordChar c = true) (ha0 : addr.data ≠ [])
    (hsp : ∀ c ∈ sp.data, spaceChar c = true) :
    XReg0.extract_macro_parameters ("X_REG0!(" ++ name ++ "," ++ sp ++ addr ++ ");" ++ suffix)
      = some (name, addr) := by
  have hdata : ("X_REG0!(" ++ name ++ "," ++ sp ++ addr ++ ");" ++ suffix).data
      = ("X_REG0!(").data ++
          (name.data ++ (',' :: (sp.data ++ (addr.data ++ (')' :: ';' :: suffix.data))))) := by
    simp only [String.data_append, List.append_assoc,
      show (",").data = [','] from rfl, show (");").data = [')', ';'] from rfl]
    simp
  show parseMacroLine ("X_REG0!(").data _ = _
  rw [hdata, parseMacroLine_canonical _ _ _ _ _ hn hn0 ha ha0 hsp]

/-- String-level canonical match, variant B. -/
theorem extract1_canonical (name sp addr suffix : String)
    (hn : ∀ c ∈ name.data, wordChar c = true) (hn0 : name.data ≠ [])
    (ha : ∀ c ∈ addr.data, wordChar c = true) (ha0 : addr.data ≠ [])
    (hsp : ∀ c ∈ sp.data, spaceChar c = true) :
    XReg1.extract_macro_parameters ("X_REG1!(" ++ name ++ "," ++ sp ++ addr ++ ");" ++ suffix)
      = some (name, addr) := by
  have hdata : ("X_REG1!(" ++ name ++ "," ++ sp ++ addr ++ ");" ++ suffix).data
      = ("X_REG1!(").data ++
          (name.data ++ (',' :: (sp.data ++ (addr.data ++ (')' :: ';' :: suffix.data))))) := by
    simp only [String.data_append, List.append_assoc,
      show (",").data = [','] from rfl, show (");").data = [')', ';'] from rfl]
    simp
  show parseMacroLine ("X_REG1!(").data _ = _
  rw [hdata, parseMacroLine_canonical _ _ _ _ _ hn hn0 ha ha0 hsp]

/-- Variant A's `generate_code` is exactly the rendering of its template
pieces: every substitution point receives the argument verbatim. -/
theorem gen0_eq_render (n a : String) :
    XReg0.generate_code n a = renderTemplate XReg0.xreg0Tpl n a := by
  simp [XReg0.generate_code, renderTemplate, XReg0.xreg0Tpl, Piece.render,
    String.append_assoc, String.append_empty]

/-- Variant B's `generate_code` is exactly the rendering of its template
pieces. -/
theorem gen1_eq_render (n a : String) :
    XReg1.generate_code n a = renderTemplate XReg1.xreg1Tpl n a := by
  simp [XReg1.generate_code, renderTemplate, XReg1.xreg1Tpl, Piece.render,
    String.append_assoc, String.append_empty]

/-- One parsed line contributes exactly one block to the run's output. -/
theorem runWith_cons_some (ext : String → Option (String × String))
    (gen : String → String → String) (l : String) (ls : List String)
    (n a : String) (h : ext l = some (n, a)) :
    runWith ext gen (l :: ls)
      = (gen n a :: (runWith ext gen ls).1, (runWith ext gen ls).2) := by
  simp [runWith, h]

/-- A line that fails to parse aborts the run: the blocks printed are those
of the lines before it, and the run reports failure. -/
theorem runWith_append_err (ext : String → Option (String × String))
    (gen : String → String → String) (l : String) (h : ext l = none)
    (pre ls : List String) :
    runWith ext gen (pre ++ l :: ls) = ((runWith ext gen pre).1, false) := by
  induction pre with
  | nil => simp [runWith, h]
  | cons p ps ih =>
    simp only [List.cons_append, runWith]
    cases hx : ext p with
    | none => simp
    | some na => cases na with | mk n a => simp [ih]

/-- C1: for every input line matching the macro pattern `MACRO!(NAME, ADDR);`
(`X_REG0` for variant A, `X_REG1` for variant B; `NAME` and `ADDR` non-empty
word-character tokens, any run of whitespace after the comma), the
generator's output for that line is exactly one template block in which
every occurrence of the register-name placeholder is `NAME` verbatim and
every occurrence of the address placeholder is `ADDR` verbatim. -/
theorem C1_matched_line_one_verbatim_block (name sp addr : String)
    (hn : ∀ c ∈ name.data, wordChar c = true) (hn0 : name.data ≠ [])
    (ha : ∀ c ∈ addr.data, wordChar c = true) (ha0 : addr.data ≠ [])
    (hsp : ∀ c ∈ sp.data, spaceChar c = true) :
    XReg0.run ["X_REG0!(" ++ name ++ "," ++ sp ++ addr ++ ");"]
        = ([renderTemplate XReg0.xreg0Tpl name addr], true) ∧
    XReg1.run ["X_REG1!(" ++ name ++ "," ++ sp ++ addr ++ ");"]
        = ([renderTemplate XReg1.xreg1Tpl name addr], true) := by
  have h0 := extract0_canonical name sp addr "" hn hn0 ha ha0 hsp
  rw [String.append_empty] at h0
  have h1 := extract1_canonical name sp addr "" hn hn0 ha ha0 hsp
  rw [String.append_empty] at h1
  constructor
  · show runWith _ _ _ = _
    rw [runWith_cons_some _ _ _ _ _ _ h0]
    simp [runWith, gen0_eq_render]
  · show runWith _ _ _ = _
    rw [runWith_cons_some _ _ _ _ _ _ h1]
    simp [runWith, gen1_eq_render]

/-- Witness for C1 at the concrete line of the spec's variant-A scenario. -/
theorem C1_matched_line_one_verbatim_block_witness :
    XReg0.run ["X_REG0!(" ++ "GpioPinA" ++ "," ++ " " ++ "0x0300" ++ ");"]
        = ([renderTemplate XReg0.xreg0Tpl "GpioPinA" "0x0300"], true) ∧
    XReg1.run ["X_REG1!(" ++ "GpioPinA" ++ "," ++ " " ++ "0x0300" ++ ");"]
        = ([renderTemplate XReg1.xreg1Tpl "GpioPinA" "0x0300"], true) :=
  C1_matched_line_one_verbatim_block "GpioPinA" " " "0x0300"
    (by decide) (by decide) (by decide) (by decide) (by decide)

/-- C2 counterexample: the command-interrupt aggregate mask of `temp.py` is
not `0x1446`; the OR of the six bit constants at positions 1, 2, 6, 8, 10
and 12 is `0x1546`. -/
theorem C2_cmd_mask_not_0x1446 : Temp.FSDIF_INTS_CMD_MASK ≠ 0x1446 := by decide

/-- C2 (amended): the command-interrupt aggregate mask, the bitwise OR of
the six bit constants at positions 1, 2, 6, 8, 10 and 12, equals `0x1546`,
and its set bits below 16 are exactly those six positions. -/
theorem C2_cmd_mask_value :
    Temp.FSDIF_INTS_CMD_MASK = 0x1546 ∧
    ((List.range 16).all (fun i =>
        Temp.FSDIF_INTS_CMD_MASK.testBit i
          == decide (i ∈ ([1, 2, 6, 8, 10, 12] : List Nat)))) = true := by
  decide

set_option maxRecDepth 200000 in
/-- C3 counterexample: variant B's output block for
`X_REG1!(GpioDelay3, 0x40);` does not contain 16 `const` bit declarations
— its template has 18 of them (per field group: an enable bit, a 3-bit
delicate subfield with its mask, and a 3-bit rough subfield with its mask:
nine constants per group, two groups). -/
theorem C3_not_sixteen_consts :
    ¬ countConstLines (XReg1.generate_code "GpioDelay3" "0x40") = 16 := by decide

set_option maxRecDepth 200000 in
/-- C3 (amended): for the input line `X_REG1!(GpioDelay3, 0x40);`, variant
B emits an output block declaring a bit-flag type named `GpioDelay3` bound
to address `0x40` that contains 18 named bit constants whose positions lie
between 0 and 14 with both endpoints used — per field group an enable
bit, a 3-bit delicate subfield with its mask, and a 3-bit rough subfield
with its mask, for the output-delay and input-delay groups. -/
theorem C3_gpio_delay3_block :
    XReg1.extract_macro_parameters "X_REG1!(GpioDelay3, 0x40);" = some ("GpioDelay3", "0x40") ∧
    XReg1.run ["X_REG1!(GpioDelay3, 0x40);"] = ([XReg1.generate_code "GpioDelay3" "0x40"], true) ∧
    XReg1.generate_code "GpioDelay3" "0x40" = renderTemplate XReg1.xreg1Tpl "GpioDelay3" "0x40" ∧
    hasInfix ("struct GpioDelay3: u32").data (XReg1.generate_code "GpioDelay3" "0x40").data = true ∧
    hasInfix ("const REG: u32 = 0x40;").data (XReg1.generate_code "GpioDelay3" "0x40").data = true ∧
    XReg1.xreg1ConstBlock = String.join (XReg1.xreg1Consts.map XReg1.constLine1) ∧
    countConstLines (XReg1.generate_code "GpioDelay3" "0x40") = 18 ∧
    XReg1.xreg1Consts.length = 18 ∧
    (XReg1.xreg1Consts.flatMap (fun p => p.2.bits)).all (fun b => b < 15) = true ∧
    0 ∈ XReg1.xreg1Consts.flatMap (fun p => p.2.bits) ∧
    14 ∈ XReg1.xreg1Consts.flatMap (fun p => p.2.bits) ∧
    List.lookup "OUT_DELAY_EN" XReg1.xreg1Consts = some (.bit 8) ∧
    List.lookup "OUT_DELAY_DELICATE_MASK" XReg1.xreg1Consts = some (.mask 11 9) ∧
    List.lookup "OUT_DELAY_ROUGH_MASK" XReg1.xreg1Consts = some (.mask 14 12) ∧
    List.lookup "IN_DELAY_EN" XReg1.xreg1Consts = some (.bit 0) ∧
    List.lookup "IN_DELAY_DELICATE_MASK" XReg1.xreg1Consts = some (.mask 3 1) ∧
    List.lookup "IN_DELAY_ROUGH_MASK" XReg1.xreg1Consts = some (.mask 6 4) := by
  have hrun : XReg1.run ["X_REG1!(GpioDelay3, 0x40);"]
      = ([XReg1.generate_code "GpioDelay3" "0x40"], true) := by
    show runWith _ _ _ = _
    rw [runWith_cons_some _ _ _ _ _ _
      (show XReg1.extract_macro_parameters "X_REG1!(GpioDelay3, 0x40);"
          = some ("GpioDelay3", "0x40") by decide)]
    simp [runWith]
  refine ⟨by decide, hrun, gen1_eq_render "GpioDelay3" "0x40", by decide, by decide,
    by decide, by decide, by decide, by decide, by decide, by decide, by decide,
    by decide, by decide, by decide, by decide, by decide⟩

/-- C4: a line that does not match the macro pattern — in particular the
missing-comma line `X_REG0!(GpioPinA 0x0300)` — makes
`extract_macro_parameters` raise the malformed-input error (`none` here),
and the run emits no output block for that line: the blocks printed are
exactly those of the lines before it, and the run fails. -/
theorem C4_malformed_line_aborts :
    XReg0.extract_macro_parameters "X_REG0!(GpioPinA 0x0300)" = none ∧
    XReg1.extract_macro_parameters "X_REG1!(GpioDelay3 0x40)" = none ∧
    (∀ l : String, XReg0.extract_macro_parameters l = none →
      ∀ pre ls, XReg0.run (pre ++ l :: ls) = ((XReg0.run pre).1, false)) ∧
    (∀ l : String, XReg1.extract_macro_parameters l = none →
      ∀ pre ls, XReg1.run (pre ++ l :: ls) = ((XReg1.run pre).1, false)) := by
  refine ⟨by decide, by decide, ?_, ?_⟩
  · intro l hl pre ls
    exact runWith_append_err _ _ _ hl pre ls
  · intro l hl pre ls
    exact runWith_append_err _ _ _ hl pre ls

/-- Witness for C4: the spec's malformed line at the head of a run emits
nothing and fails. -/
theorem C4_malformed_line_aborts_witness :
    XReg0.run ([] ++ "X_REG0!(GpioPinA 0x0300)" :: [])
      = ((XReg0.run []).1, false) :=
  C4_malformed_line_aborts.2.2.1 "X_REG0!(GpioPinA 0x0300)" (by decide) [] []

/-- C6: the data-interrupt aggregate mask (OR of the bit constants at
positions 3, 7, 9 and 13) equals `0x2288`, and the DMA-controller
interrupt-enable mask (OR of the bit constants at positions 2, 4, 8 and 9)
equals `0x314`; below bit 16 their set bits are exactly those positions. -/
theorem C6_data_and_dma_masks :
    Temp.FSDIF_INTS_DATA_MASK = 0x2288 ∧
    Temp.FSDIF_DMAC_INTS_MASK = 0x314 ∧
    ((List.range 16).all (fun i =>
        Temp.FSDIF_INTS_DATA_MASK.testBit i
          == decide (i ∈ ([3, 7, 9, 13] : List Nat)))) = true ∧
    ((List.range 16).all (fun i =>
        Temp.FSDIF_DMAC_INTS_MASK.testBit i
          == decide (i ∈ ([2, 4, 8, 9] : List Nat)))) = true := by
  decide

/-- C7 counterexample: run as a program, the mask calculator does not print
two or more lines — its `__main__` block calls only `dmac_int_ena`, which
prints exactly one line. -/
theorem C7_not_two_lines : ¬ 2 ≤ Temp.mainOutput.length := by decide

/-- C7 (amended): run as a program, the mask calculator prints exactly one
line, of the form `LABEL: <hex-value>` with a `0x` prefix, lowercase hex
digits and no fixed-width padding. -/
theorem C7_main_prints_one_mask_line :
    Temp.mainOutput.length = 1 ∧ ∀ l ∈ Temp.mainOutput, Temp.isMaskLine l := by
  refine ⟨rfl, ?_⟩
  intro l hl
  simp only [Temp.mainOutput, Temp.dmac_int_ena, List.mem_singleton] at hl
  subst hl
  exact ⟨"FSDIF_DMAC_INTS_MASK", "314", by decide, by decide, by decide, by decide,
    by decide⟩

set_option maxRecDepth 200000 in
/-- C5: for the input line `X_REG0!(GpioPinA, 0x0300);`, variant A emits
one output block declaring a bit-flag type named `GpioPinA` bound to
register address `0x0300`, whose `const` section is exactly the fixed list
of 12 named bit constants (PULL_MASK, DRIVE_MASK, FUNC_MASK, FUNC_BIT0..2,
DRIVE_BIT0..3, PULL_BIT0..1) with their fixed bit-position values,
`PULL_BIT0 = 1 << 8` among them. -/
theorem C5_gpio_pin_a_block :
    XReg0.extract_macro_parameters "X_REG0!(GpioPinA, 0x0300);" = some ("GpioPinA", "0x0300") ∧
    XReg0.run ["X_REG0!(GpioPinA, 0x0300);"] = ([XReg0.generate_code "GpioPinA" "0x0300"], true) ∧
    XReg0.generate_code "GpioPinA" "0x0300" = renderTemplate XReg0.xreg0Tpl "GpioPinA" "0x0300" ∧
    hasInfix ("struct GpioPinA: u32").data (XReg0.generate_code "GpioPinA" "0x0300").data = true ∧
    hasInfix ("const REG: u32 = 0x0300;").data (XReg0.generate_code "GpioPinA" "0x0300").data = true ∧
    XReg0.xreg0ConstBlock = String.join (XReg0.xreg0Consts.map XReg0.constLine0) ∧
    countConstLines (XReg0.generate_code "GpioPinA" "0x0300") = 12 ∧
    XReg0.xreg0Consts.length = 12 ∧
    XReg0.xreg0Consts.map Prod.fst
      = ["PULL_MASK", "DRIVE_MASK", "FUNC_MASK", "FUNC_BIT0", "FUNC_BIT1", "FUNC_BIT2",
         "DRIVE_BIT0", "DRIVE_BIT1", "DRIVE_BIT2", "DRIVE_BIT3", "PULL_BIT0", "PULL_BIT1"] ∧
    List.lookup "PULL_BIT0" XReg0.xreg0Consts = some (.bit 8) ∧
    List.lookup "PULL_MASK" XReg0.xreg0Consts = some (.mask 9 8) ∧
    List.lookup "DRIVE_MASK" XReg0.xreg0Consts = some (.mask 7 4) ∧
    List.lookup "FUNC_MASK" XReg0.xreg0Consts = some (.mask 2 0) := by
  have hrun : XReg0.run ["X_REG0!(GpioPinA, 0x0300);"]
      = ([XReg0.generate_code "GpioPinA" "0x0300"], true) := by
    show runWith _ _ _ = _
    rw [runWith_cons_some _ _ _ _ _ _
      (show XReg0.extract_macro_parameters "X_REG0!(GpioPinA, 0x0300);"
          = some ("GpioPinA", "0x0300") by decide)]
    simp [runWith]
  refine ⟨by decide, hrun, gen0_eq_render "GpioPinA" "0x0300", by decide, by decide,
    by decide, by decide, by decide, by decide, by decide, by decide, by decide,
    by decide⟩

/-- C8: the generators are deterministic: two runs on byte-for-byte equal
line sequences produce byte-for-byte identical stdout bytes and outcome,
for both variants. -/
theorem C8_generators_deterministic (i1 i2 : List String) (h : i1 = i2) :
    runOutput XReg0.extract_macro_parameters XReg0.generate_code i1
      = runOutput XReg0.extract_macro_parameters XReg0.generate_code i2 ∧
    runOutput XReg1.extract_macro_parameters XReg1.generate_code i1
      = runOutput XReg1.extract_macro_parameters XReg1.generate_code i2 := by
  subst h
  exact ⟨rfl, rfl⟩

/-- Witness for C8 at a concrete input list. -/
theorem C8_generators_deterministic_witness :
    runOutput XReg0.extract_macro_parameters XReg0.generate_code ["X_REG0!(GpioPinA, 0x0300);"]
      = runOutput XReg0.extract_macro_parameters XReg0.generate_code ["X_REG0!(GpioPinA, 0x0300);"] ∧
    runOutput XReg1.extract_macro_parameters XReg1.generate_code ["X_REG0!(GpioPinA, 0x0300);"]
      = runOutput XReg1.extract_macro_parameters XReg1.generate_code ["X_REG0!(GpioPinA, 0x0300);"] :=
  C8_generators_deterministic ["X_REG0!(GpioPinA, 0x0300);"] ["X_REG0!(GpioPinA, 0x0300);"] rfl

/-- C9: the matcher is anchored only at the start of the line: a line that
begins with a well-formed macro invocation followed by any trailing suffix
whatsoever parses successfully, and returns the same `(NAME, ADDR)` pair
as the line without the suffix; trailing content after the `;` is never
rejected.  Holds for both variants. -/
theorem C9_trailing_suffix_ignored (name sp addr suffix : String)
    (hn : ∀ c ∈ name.data, wordChar c = true) (hn0 : name.data ≠ [])
    (ha : ∀ c ∈ addr.data, wordChar c = true) (ha0 : addr.data ≠ [])
    (hsp : ∀ c ∈ sp.data, spaceChar c = true) :
    XReg0.extract_macro_parameters ("X_REG0!(" ++ name ++ "," ++ sp ++ addr ++ ");" ++ suffix)
        = some (name, addr) ∧
    XReg0.extract_macro_parameters ("X_REG0!(" ++ name ++ "," ++ sp ++ addr ++ ");")
        = some (name, addr) ∧
    XReg1.extract_macro_parameters ("X_REG1!(" ++ name ++ "," ++ sp ++ addr ++ ");" ++ suffix)
        = some (name, addr) ∧
    XReg1.extract_macro_parameters ("X_REG1!(" ++ name ++ "," ++ sp ++ addr ++ ");")
        = some (name, addr) := by
  have h0e := extract0_canonical name sp addr "" hn hn0 ha ha0 hsp
  have h1e := extract1_canonical name sp addr "" hn hn0 ha ha0 hsp
  rw [String.append_empty] at h0e h1e
  exact ⟨extract0_canonical name sp addr suffix hn hn0 ha ha0 hsp, h0e,
    extract1_canonical name sp addr suffix hn hn0 ha ha0 hsp, h1e⟩

/-- Witness for C9: a concrete suffix, text after the semicolon included,
is accepted. -/
theorem C9_trailing_suffix_ignored_witness :
    XReg0.extract_macro_parameters
        ("X_REG0!(" ++ "GpioPinA" ++ "," ++ " " ++ "0x0300" ++ ");" ++ " // trailing junk")
        = some ("GpioPinA", "0x0300") ∧
    XReg0.extract_macro_parameters ("X_REG0!(" ++ "GpioPinA" ++ "," ++ " " ++ "0x0300" ++ ");")
        = some ("GpioPinA", "0x0300") ∧
    XReg1.extract_macro_parameters
        ("X_REG1!(" ++ "GpioPinA" ++ "," ++ " " ++ "0x0300" ++ ");" ++ " // trailing junk")
        = some ("GpioPinA", "0x0300") ∧
    XReg1.extract_macro_parameters ("X_REG1!(" ++ "GpioPinA" ++ "," ++ " " ++ "0x0300" ++ ");")
        = some ("GpioPinA", "0x0300") :=
  C9_trailing_suffix_ignored "GpioPinA" " " "0x0300" " // trailing junk"
    (by decide) (by decide) (by decide) (by decide) (by decide)

/-- C10: whenever parameter extraction of either generator succeeds, both
returned tokens are non-empty and consist only of word characters
(letters, digits, underscore). -/
theorem C10_extracted_tokens_are_word_tokens (input n a : String)
    (h : XReg0.extract_macro_parameters input = some (n, a) ∨
         XReg1.extract_macro_parameters input = some (n, a)) :
    n.data ≠ [] ∧ a.data ≠ [] ∧
      (∀ c ∈ n.data, wordChar c = true) ∧ (∀ c ∈ a.data, wordChar c = true) := by
  rcases h with h | h
  · exact parseMacroLine_wordlike _ _ _ _ h
  · exact parseMacroLine_wordlike _ _ _ _ h

/-- Witness for C10 at a concrete successful extraction. -/
theorem C10_extracted_tokens_are_word_tokens_witness :
    ("GpioPinA" : String).data ≠ [] ∧ ("0x0300" : String).data ≠ [] ∧
      (∀ c ∈ ("GpioPinA" : String).data, wordChar c = true) ∧
      (∀ c ∈ ("0x0300" : String).data, wordChar c = true) :=
  C10_extracted_tokens_are_word_tokens "X_REG0!(GpioPinA, 0x0300);" "GpioPinA" "0x0300"
    (Or.inl (by decide))
